import Mathlib

/-!
# Verification of the esp32_watch power/sleep core

Shallow embedding of the battery-telemetry layer
(`src/components/axp2101_pmu/pmu_axp2101.c`) and the sleep/wake
coordinator (`src/components/sleep_manager/sleep_manager.c`).

I2C bus transactions are modelled as their outcomes: a read either fails
(`none`) or returns the raw register value (`some v`).  Machine integers
are modelled as `Nat`; all the C arithmetic in scope is on non-negative
in-range values (the branches of `axp2101_get_battery_percent` guarantee
that the `int` subtractions never go negative, so `Nat` subtraction
coincides), and compile-time feature flags (`CONFIG_...`) are modelled as
fields of a `Config` record.
-/

namespace EspWatch

/-- esp_err_t values that occur in the modelled code paths. -/
inductive EspErr where
  | ok
  | fail
  | invalidState
  | invalidArg
  | timeout
  deriving DecidableEq, Repr

/-! ## Telemetry constants (pmu_axp2101.c) -/

def VBAT_MIN_MV : Nat := 3300
def VBAT_NOMINAL_MV : Nat := 3700
def VBAT_MAX_MV : Nat := 4200
def VBAT_ABSOLUTE_MIN_MV : Nat := 2500
def VBAT_ABSOLUTE_MAX_MV : Nat := 4500
def I2C_RETRY_COUNT : Nat := 3

/-! ## Voltage-to-percent conversion

`axp2101_get_battery_percent` (pmu_axp2101.c:106-141) reads the battery
voltage and converts it with a two-slope linear map; the fuel-gauge
register `AXP2101_REG_FUEL_GAUGE` (0xA4) is declared in the file but
never read, so the percentage is a pure function of the measured
voltage.  `percent_from_voltage` is the conversion-and-clamp part of
that function. -/

/-- The `calculated_percent` value of `axp2101_get_battery_percent`
before the final clamp. -/
def calculated_percent (voltage_mv : Nat) : Nat :=
  if voltage_mv ≤ VBAT_MIN_MV then 0
  else if VBAT_MAX_MV ≤ voltage_mv then 100
  else if voltage_mv < VBAT_NOMINAL_MV then
    (voltage_mv - VBAT_MIN_MV) * 50 / (VBAT_NOMINAL_MV - VBAT_MIN_MV)
  else
    50 + (voltage_mv - VBAT_NOMINAL_MV) * 50 / (VBAT_MAX_MV - VBAT_NOMINAL_MV)

/-- The clamp `(c < 0) ? 0 : (c > 100) ? 100 : c` of
`axp2101_get_battery_percent`; in the `Nat` model the lower clamp is
vacuous. -/
def percent_from_voltage (voltage_mv : Nat) : Nat :=
  let c := calculated_percent voltage_mv
  if 100 < c then 100 else c

/-- `axp2101_get_battery_percent`: fails iff the underlying voltage read
fails, otherwise converts the raw 16-bit voltage. -/
def axp2101_get_battery_percent (voltage_read : Option Nat) : Option Nat :=
  voltage_read.map percent_from_voltage

/-! ## Basic bounds of the conversion -/

theorem calculated_percent_low_le (mv : Nat) (h1 : VBAT_MIN_MV < mv)
    (h2 : mv < VBAT_NOMINAL_MV) :
    calculated_percent mv = (mv - 3300) * 50 / 400 ∧ calculated_percent mv ≤ 49 := by
  unfold calculated_percent VBAT_MIN_MV VBAT_NOMINAL_MV VBAT_MAX_MV at *
  constructor
  · rw [if_neg (by omega), if_neg (by omega), if_pos (by omega)]
  · rw [if_neg (by omega), if_neg (by omega), if_pos (by omega)]
    calc (mv - 3300) * 50 / 400 ≤ 399 * 50 / 400 := by
          apply Nat.div_le_div_right
          exact Nat.mul_le_mul_right 50 (by omega)
      _ = 49 := by norm_num

theorem calculated_percent_high_le (mv : Nat) (h1 : VBAT_NOMINAL_MV ≤ mv)
    (h2 : mv < VBAT_MAX_MV) :
    calculated_percent mv = 50 + (mv - 3700) * 50 / 500 ∧ calculated_percent mv ≤ 99 := by
  unfold calculated_percent VBAT_MIN_MV VBAT_NOMINAL_MV VBAT_MAX_MV at *
  constructor
  · rw [if_neg (by omega), if_neg (by omega), if_neg (by omega)]
  · rw [if_neg (by omega), if_neg (by omega), if_neg (by omega)]
    have : (mv - 3700) * 50 / 500 ≤ 49 := by
      calc (mv - 3700) * 50 / 500 ≤ 499 * 50 / 500 := by
            apply Nat.div_le_div_right
            exact Nat.mul_le_mul_right 50 (by omega)
        _ = 49 := by norm_num
    omega

theorem calculated_percent_le_100 (mv : Nat) : calculated_percent mv ≤ 100 := by
  by_cases h1 : mv ≤ VBAT_MIN_MV
  · simp [calculated_percent, h1]
  · by_cases h2 : VBAT_MAX_MV ≤ mv
    · unfold calculated_percent
      rw [if_neg h1, if_pos h2]
    · by_cases h3 : mv < VBAT_NOMINAL_MV
      · have := (calculated_percent_low_le mv (by omega) h3).2
        omega
      · have := (calculated_percent_high_le mv (by omega) (by omega)).2
        omega

/-- Since the computed value never exceeds 100, the upper clamp is the
identity on every reachable value. -/
theorem percent_from_voltage_eq_calculated (mv : Nat) :
    percent_from_voltage mv = calculated_percent mv := by
  unfold percent_from_voltage
  have := calculated_percent_le_100 mv
  rw [if_neg (by omega)]

theorem calculated_percent_of_le_min {mv : Nat} (h : mv ≤ 3300) :
    calculated_percent mv = 0 := by
  unfold calculated_percent VBAT_MIN_MV
  rw [if_pos h]

theorem calculated_percent_of_ge_max {mv : Nat} (h2 : 4200 ≤ mv) :
    calculated_percent mv = 100 := by
  unfold calculated_percent VBAT_MIN_MV VBAT_MAX_MV
  rw [if_neg (by omega), if_pos h2]

/-- Monotonicity of the unclamped conversion. -/
theorem calculated_percent_mono {mv1 mv2 : Nat} (h : mv1 ≤ mv2) :
    calculated_percent mv1 ≤ calculated_percent mv2 := by
  by_cases h1 : mv1 ≤ 3300
  · rw [calculated_percent_of_le_min h1]
    exact Nat.zero_le _
  · by_cases h2 : 4200 ≤ mv2
    · rw [calculated_percent_of_ge_max h2]
      exact calculated_percent_le_100 mv1
    · by_cases h3 : mv2 < 3700
      · have e1 := (calculated_percent_low_le mv1 (by unfold VBAT_MIN_MV; omega)
          (by unfold VBAT_NOMINAL_MV; omega)).1
        have e2 := (calculated_percent_low_le mv2 (by unfold VBAT_MIN_MV; omega)
          (by unfold VBAT_NOMINAL_MV; omega)).1
        rw [e1, e2]
        exact Nat.div_le_div_right (Nat.mul_le_mul_right 50 (by omega))
      · by_cases h4 : mv1 < 3700
        · have b1 := (calculated_percent_low_le mv1 (by unfold VBAT_MIN_MV; omega)
            (by unfold VBAT_NOMINAL_MV; omega)).2
          have e2 := (calculated_percent_high_le mv2 (by unfold VBAT_NOMINAL_MV; omega)
            (by unfold VBAT_MAX_MV; omega)).1
          have : 50 ≤ calculated_percent mv2 := by rw [e2]; omega
          omega
        · have e1 := (calculated_percent_high_le mv1 (by unfold VBAT_NOMINAL_MV; omega)
            (by unfold VBAT_MAX_MV; omega)).1
          have e2 := (calculated_percent_high_le mv2 (by unfold VBAT_NOMINAL_MV; omega)
            (by unfold VBAT_MAX_MV; omega)).1
          rw [e1, e2]
          have : (mv1 - 3700) * 50 / 500 ≤ (mv2 - 3700) * 50 / 500 :=
            Nat.div_le_div_right (Nat.mul_le_mul_right 50 (by omega))
          omega

/-- **C1** — `percent_from_voltage` (the conversion inside
`axp2101_get_battery_percent`) is exactly the two-segment
piecewise-linear map: `mv ≤ 3300 ↦ 0`; `mv ≥ 4200 ↦ 100`; on
`(3300, 3700)` it interpolates 0-50 over `[3300, 3700]`; on
`[3700, 4200)` it interpolates 50-100 over `[3700, 4200]`; the result is
clamped to `[0, 100]`; the listed breakpoints are exact; and the percent
is always derived from the voltage reading (`axp2101_get_battery_percent`
maps the voltage read through `percent_from_voltage`; the fuel-gauge
register 0xA4 is never read). -/
theorem C1_percent_from_voltage_piecewise :
    (∀ mv, mv ≤ 3300 → percent_from_voltage mv = 0) ∧
    (∀ mv, 4200 ≤ mv → percent_from_voltage mv = 100) ∧
    (∀ mv, 3300 < mv → mv < 3700 →
      percent_from_voltage mv = (mv - 3300) * 50 / 400) ∧
    (∀ mv, 3700 ≤ mv → mv < 4200 →
      percent_from_voltage mv = 50 + (mv - 3700) * 50 / 500) ∧
    percent_from_voltage 3300 = 0 ∧ percent_from_voltage 3500 = 25 ∧
    percent_from_voltage 3700 = 50 ∧ percent_from_voltage 3950 = 75 ∧
    percent_from_voltage 4200 = 100 ∧
    (∀ mv, percent_from_voltage mv ≤ 100) ∧
    (∀ r, axp2101_get_battery_percent r = r.map percent_from_voltage) := by
  refine ⟨?_, ?_, ?_, ?_, by decide, by decide, by decide, by decide, by decide, ?_, ?_⟩
  · intro mv h
    rw [percent_from_voltage_eq_calculated, calculated_percent_of_le_min h]
  · intro mv h
    rw [percent_from_voltage_eq_calculated, calculated_percent_of_ge_max h]
  · intro mv h1 h2
    rw [percent_from_voltage_eq_calculated]
    exact (calculated_percent_low_le mv (by unfold VBAT_MIN_MV; omega)
      (by unfold VBAT_NOMINAL_MV; omega)).1
  · intro mv h1 h2
    rw [percent_from_voltage_eq_calculated]
    exact (calculated_percent_high_le mv (by unfold VBAT_NOMINAL_MV; omega)
      (by unfold VBAT_MAX_MV; omega)).1
  · intro mv
    rw [percent_from_voltage_eq_calculated]
    exact calculated_percent_le_100 mv
  · intro r
    rfl

/-- Witness for C1: the interpolation clauses applied at concrete inputs. -/
theorem C1_percent_from_voltage_piecewise_witness :
    percent_from_voltage 3400 = (3400 - 3300) * 50 / 400 ∧
    percent_from_voltage 4000 = 50 + (4000 - 3700) * 50 / 500 :=
  ⟨C1_percent_from_voltage_piecewise.2.2.1 3400 (by decide) (by decide),
   C1_percent_from_voltage_piecewise.2.2.2.1 4000 (by decide) (by decide)⟩

/-- **C8** — `percent_from_voltage` is monotone non-decreasing: for all
millivolt inputs `mv1 < mv2` (in particular all unsigned 16-bit values),
`percent_from_voltage mv1 ≤ percent_from_voltage mv2`, across both
interpolation segments and the clamp boundaries under integer
division. -/
theorem C8_percent_from_voltage_mono (mv1 mv2 : Nat) (h : mv1 < mv2) :
    percent_from_voltage mv1 ≤ percent_from_voltage mv2 := by
  rw [percent_from_voltage_eq_calculated, percent_from_voltage_eq_calculated]
  exact calculated_percent_mono (Nat.le_of_lt h)

/-- Witness for C8: monotonicity applied across the 3700 mV boundary. -/
theorem C8_percent_from_voltage_mono_witness :
    percent_from_voltage 3699 ≤ percent_from_voltage 3701 :=
  C8_percent_from_voltage_mono 3699 3701 (by decide)

/-! ## `axp2101_get_battery_data_safe` (pmu_axp2101.c:192-273)

Each field section runs a `for (retry = 0; retry < I2C_RETRY_COUNT; ...)`
loop that breaks on the first accepted reading.  The bus is modelled as
a function from the attempt number to the outcome of that attempt
(`none` = transaction error, `some v` = raw value read).  An attempt
that succeeds on the bus but is rejected by the sanity check continues
the loop exactly like a bus failure, so each loop is an instance of
`retry_first` with a per-field acceptance step. -/

def voltage_in_bounds (v : Nat) : Bool :=
  decide (VBAT_ABSOLUTE_MIN_MV ≤ v) && decide (v ≤ VBAT_ABSOLUTE_MAX_MV)

/-- The first accepted outcome among `fuel` attempts starting at attempt
index `retry`; `none` when every attempt fails or is rejected. -/
def retry_first {α : Type} (step : Nat → Option α) : Nat → Nat → Option α
  | _, 0 => none
  | retry, fuel + 1 =>
    match step retry with
    | some v => some v
    | none => retry_first step (retry + 1) fuel

/-- Attempt `i` of the voltage section: the bus read must succeed and the
value must pass the `[2500, 4500]` sanity check. -/
def attempt_step_voltage (read : Nat → Option Nat) (i : Nat) : Option Nat :=
  match read i with
  | some v => if voltage_in_bounds v then some v else none
  | none => none

/-- Voltage section of `axp2101_get_battery_data_safe`: value written to
`*voltage_mv` and whether a validated reading was obtained (else the
3700 mV default). -/
def voltage_block (read : Nat → Option Nat) : Nat × Bool :=
  match retry_first (attempt_step_voltage read) 0 I2C_RETRY_COUNT with
  | some v => (v, true)
  | none => (VBAT_NOMINAL_MV, false)

/-- Attempt `i` of the percentage section: `axp2101_get_battery_percent`
must return OK and the value must be `≤ 100`. -/
def attempt_step_percent (read : Nat → Option Nat) (i : Nat) : Option Nat :=
  match axp2101_get_battery_percent (read i) with
  | some p => if p ≤ 100 then some p else none
  | none => none

/-- Percentage section: value written to `*percent` and whether a
reading was obtained (else the default 50). -/
def percent_block (read : Nat → Option Nat) : Nat × Bool :=
  match retry_first (attempt_step_percent read) 0 I2C_RETRY_COUNT with
  | some p => (p, true)
  | none => (50, false)

/-- `axp2101_is_charging`: reads the charge-status register; charging
iff bit 6 is clear (the bit is inverted, pmu_axp2101.c:161-163). -/
def axp2101_is_charging (status_read : Option Nat) : Option Bool :=
  status_read.map (fun s => decide (s &&& 0x40 = 0))

def attempt_step_charging (read : Nat → Option Nat) (i : Nat) : Option Bool :=
  axp2101_is_charging (read i)

/-- Charging section: value written to `*is_charging` and whether a
reading was obtained (else the default `false`). -/
def charging_block (read : Nat → Option Nat) : Bool × Bool :=
  match retry_first (attempt_step_charging read) 0 I2C_RETRY_COUNT with
  | some b => (b, true)
  | none => (false, false)

/-- Caller-visible outcome of `axp2101_get_battery_data_safe`: each
`Option` is `some` exactly when the corresponding output pointer was
non-null and hence written. -/
structure SafeResult where
  voltage : Option Nat
  percent : Option Nat
  charging : Option Bool
  ret : EspErr
  deriving DecidableEq, Repr

/-- `axp2101_get_battery_data_safe`: `initialized` models
`pmu_dev != NULL`; `wantV/wantP/wantC` model the nullness of the three
output pointers; `vRead/pRead/cRead` are the bus outcomes of the
attempts of each section. -/
def axp2101_get_battery_data_safe (initialized wantV wantP wantC : Bool)
    (vRead pRead cRead : Nat → Option Nat) : SafeResult :=
  if !initialized then ⟨none, none, none, .invalidState⟩
  else
    let vb := voltage_block vRead
    let pb := percent_block pRead
    let cb := charging_block cRead
    let success := (wantV && vb.2) || (wantP && pb.2) || (wantC && cb.2)
    ⟨if wantV then some vb.1 else none,
     if wantP then some pb.1 else none,
     if wantC then some cb.1 else none,
     if success then .ok else .fail⟩

/-! Characterization of the bounded retry loop. -/

theorem retry_first_eq_none {α : Type} (step : Nat → Option α) (start fuel : Nat)
    (h : ∀ i, i < fuel → step (start + i) = none) :
    retry_first step start fuel = none := by
  induction fuel generalizing start with
  | zero => rfl
  | succ n ih =>
    have h0 : step start = none := by simpa using h 0 (Nat.succ_pos n)
    unfold retry_first
    rw [h0]
    exact ih (start + 1) (fun i hi => by
      have := h (i + 1) (by omega)
      rwa [show start + (i + 1) = start + 1 + i by omega] at this)

theorem retry_first_eq_some {α : Type} (step : Nat → Option α)
    (start fuel j : Nat) (v : α) (hj : j < fuel)
    (hprev : ∀ i, i < j → step (start + i) = none)
    (hstep : step (start + j) = some v) :
    retry_first step start fuel = some v := by
  induction fuel generalizing start j with
  | zero => omega
  | succ n ih =>
    cases j with
    | zero =>
      have h0 : step start = some v := by simpa using hstep
      unfold retry_first
      rw [h0]
    | succ k =>
      have h0 : step start = none := by simpa using hprev 0 (Nat.succ_pos k)
      unfold retry_first
      rw [h0]
      exact ih (start + 1) k (by omega)
        (fun i hi => by
          have := hprev (i + 1) (by omega)
          rwa [show start + (i + 1) = start + 1 + i by omega] at this)
        (by rwa [show start + (k + 1) = start + 1 + k by omega] at hstep)

theorem retry_first_some_inv {α : Type} (step : Nat → Option α)
    (start fuel : Nat) (v : α)
    (h : retry_first step start fuel = some v) :
    ∃ j, j < fuel ∧ step (start + j) = some v := by
  induction fuel generalizing start with
  | zero => simp [retry_first] at h
  | succ n ih =>
    unfold retry_first at h
    cases hs : step start with
    | some w =>
      rw [hs] at h
      refine ⟨0, Nat.succ_pos n, ?_⟩
      rw [Nat.add_zero, hs]
      exact h
    | none =>
      rw [hs] at h
      obtain ⟨j, hjn, hstep⟩ := ih (start + 1) h
      exact ⟨j + 1, by omega,
        by rwa [show start + (j + 1) = start + 1 + j by omega]⟩

theorem retry_first_none_inv {α : Type} (step : Nat → Option α)
    (start fuel : Nat) (h : retry_first step start fuel = none) :
    ∀ i, i < fuel → step (start + i) = none := by
  induction fuel generalizing start with
  | zero => intro i hi; omega
  | succ n ih =>
    intro i hi
    unfold retry_first at h
    cases hs : step start with
    | some w =>
      rw [hs] at h
      have h2 : some w = (none : Option α) := h
      cases h2
    | none =>
      rw [hs] at h
      cases i with
      | zero => rw [Nat.add_zero]; exact hs
      | succ k =>
        have := ih (start + 1) h k (by omega)
        rwa [show start + (k + 1) = start + 1 + k by omega]

theorem attempt_step_voltage_some (read : Nat → Option Nat) (i v : Nat)
    (h : attempt_step_voltage read i = some v) :
    read i = some v ∧ voltage_in_bounds v = true := by
  unfold attempt_step_voltage at h
  cases hr : read i with
  | none => rw [hr] at h; cases h
  | some w =>
    rw [hr] at h
    have h2 : (if voltage_in_bounds w = true then some w else none) = some v := h
    cases hb : voltage_in_bounds w with
    | true =>
      rw [hb, if_pos rfl] at h2
      injection h2 with hwv
      subst hwv
      exact ⟨rfl, hb⟩
    | false =>
      rw [hb] at h2
      simp only [Bool.false_eq_true, if_false] at h2
      exact Option.noConfusion h2

/-- Each percentage attempt is accepted exactly when its bus read
succeeds: the converted value is always `≤ 100`, so the `<= 100` guard
never rejects. -/
theorem attempt_step_percent_isSome (read : Nat → Option Nat) (i : Nat) :
    (attempt_step_percent read i).isSome = (read i).isSome := by
  unfold attempt_step_percent axp2101_get_battery_percent
  cases hr : read i with
  | none => rfl
  | some v =>
    have hle : percent_from_voltage v ≤ 100 := by
      rw [percent_from_voltage_eq_calculated]
      exact calculated_percent_le_100 v
    simp [hle]

theorem attempt_step_charging_isSome (read : Nat → Option Nat) (i : Nat) :
    (attempt_step_charging read i).isSome = (read i).isSome := by
  unfold attempt_step_charging axp2101_is_charging
  cases hr : read i <;> simp

/-- The voltage section's output always lies within the hard sanity
bounds: either it is a reading that passed the check or it is the
3700 mV default. -/
theorem voltage_block_bounds (read : Nat → Option Nat) :
    2500 ≤ (voltage_block read).1 ∧ (voltage_block read).1 ≤ 4500 := by
  unfold voltage_block
  cases hr : retry_first (attempt_step_voltage read) 0 I2C_RETRY_COUNT with
  | none => exact ⟨by norm_num [VBAT_NOMINAL_MV], by norm_num [VBAT_NOMINAL_MV]⟩
  | some v =>
    obtain ⟨j, hj, hstep⟩ := retry_first_some_inv _ 0 _ v hr
    have hb := (attempt_step_voltage_some read _ v hstep).2
    unfold voltage_in_bounds VBAT_ABSOLUTE_MIN_MV VBAT_ABSOLUTE_MAX_MV at hb
    simp only [Bool.and_eq_true, decide_eq_true_eq] at hb
    exact hb

theorem voltage_block_default (read : Nat → Option Nat)
    (h : (voltage_block read).2 = false) : (voltage_block read).1 = 3700 := by
  unfold voltage_block at *
  cases hr : retry_first (attempt_step_voltage read) 0 I2C_RETRY_COUNT with
  | none => rfl
  | some v => rw [hr] at h; cases h

theorem percent_block_default (read : Nat → Option Nat)
    (h : (percent_block read).2 = false) : (percent_block read).1 = 50 := by
  unfold percent_block at *
  cases hr : retry_first (attempt_step_percent read) 0 I2C_RETRY_COUNT with
  | none => rfl
  | some v => rw [hr] at h; cases h

theorem charging_block_default (read : Nat → Option Nat)
    (h : (charging_block read).2 = false) : (charging_block read).1 = false := by
  unfold charging_block at *
  cases hr : retry_first (attempt_step_charging read) 0 I2C_RETRY_COUNT with
  | none => rfl
  | some v => rw [hr] at h; cases h

theorem retry_first_isSome_iff {α : Type} (step : Nat → Option α) (fuel : Nat) :
    (retry_first step 0 fuel).isSome = true ↔
      ∃ j, j < fuel ∧ (step j).isSome = true := by
  constructor
  · intro h
    cases hr : retry_first step 0 fuel with
    | none => rw [hr] at h; cases h
    | some v =>
      obtain ⟨j, hj, hstep⟩ := retry_first_some_inv step 0 fuel v hr
      rw [Nat.zero_add] at hstep
      exact ⟨j, hj, by rw [hstep]; rfl⟩
  · rintro ⟨j, hj, hsome⟩
    cases hr : retry_first step 0 fuel with
    | some v => rfl
    | none =>
      have hnone := retry_first_none_inv step 0 fuel hr j hj
      rw [Nat.zero_add] at hnone
      rw [hnone] at hsome
      cases hsome

theorem voltage_block_snd (read : Nat → Option Nat) :
    (voltage_block read).2 =
      (retry_first (attempt_step_voltage read) 0 I2C_RETRY_COUNT).isSome := by
  unfold voltage_block
  cases retry_first (attempt_step_voltage read) 0 I2C_RETRY_COUNT <;> rfl

theorem percent_block_snd (read : Nat → Option Nat) :
    (percent_block read).2 =
      (retry_first (attempt_step_percent read) 0 I2C_RETRY_COUNT).isSome := by
  unfold percent_block
  cases retry_first (attempt_step_percent read) 0 I2C_RETRY_COUNT <;> rfl

theorem charging_block_snd (read : Nat → Option Nat) :
    (charging_block read).2 =
      (retry_first (attempt_step_charging read) 0 I2C_RETRY_COUNT).isSome := by
  unfold charging_block
  cases retry_first (attempt_step_charging read) 0 I2C_RETRY_COUNT <;> rfl

theorem data_safe_ret (wantV wantP wantC : Bool) (vR pR cR : Nat → Option Nat) :
    (axp2101_get_battery_data_safe true wantV wantP wantC vR pR cR).ret =
      if (wantV && (voltage_block vR).2) || (wantP && (percent_block pR).2) ||
         (wantC && (charging_block cR).2) then EspErr.ok else EspErr.fail := rfl

/-- **C2** — the voltage section of `axp2101_get_battery_data_safe`:
an out-of-bounds raw reading (such as 5000 mV) is never written to the
caller's voltage output; the first in-bounds reading among the three
attempts is the one accepted; and when all three attempts fail or are
out of bounds the output is the documented 3700 mV safe default. -/
theorem C2_voltage_retry_and_default (read : Nat → Option Nat) :
    (2500 ≤ (voltage_block read).1 ∧ (voltage_block read).1 ≤ 4500 ∧
      (voltage_block read).1 ≠ 5000) ∧
    (∀ j v, j < 3 → (∀ i, i < j → attempt_step_voltage read i = none) →
      read j = some v → voltage_in_bounds v = true →
      voltage_block read = (v, true)) ∧
    ((∀ i, i < 3 → attempt_step_voltage read i = none) →
      voltage_block read = (3700, false)) ∧
    (∀ wantP wantC pR cR,
      (axp2101_get_battery_data_safe true true wantP wantC read pR cR).voltage
        = some (voltage_block read).1) := by
  refine ⟨?_, ?_, ?_, ?_⟩
  · have hb := voltage_block_bounds read
    exact ⟨hb.1, hb.2, by omega⟩
  · intro j v hj hprev hr hv
    have hstep : attempt_step_voltage read (0 + j) = some v := by
      rw [Nat.zero_add]
      unfold attempt_step_voltage
      rw [hr]
      show (if voltage_in_bounds v = true then some v else none) = some v
      simp [hv]
    have heq := retry_first_eq_some (attempt_step_voltage read) 0
      I2C_RETRY_COUNT j v hj
      (fun i hi => by rw [Nat.zero_add]; exact hprev i hi) hstep
    unfold voltage_block
    rw [heq]
  · intro hall
    have heq := retry_first_eq_none (attempt_step_voltage read) 0 I2C_RETRY_COUNT
      (fun i hi => by rw [Nat.zero_add]; exact hall i hi)
    unfold voltage_block
    rw [heq]
    rfl
  · intro wantP wantC pR cR
    rfl

/-- Witness for C2: a 5000 mV reading on the first attempt and bus
failures afterwards yield the 3700 mV default, not 5000. -/
theorem C2_voltage_retry_and_default_witness :
    voltage_block (fun i => if i = 0 then some 5000 else none) = (3700, false) :=
  (C2_voltage_retry_and_default
    (fun i => if i = 0 then some 5000 else none)).2.2.1 (by decide)

/-- **C3** — `axp2101_get_battery_data_safe` on an initialized device:
the result is `Ok` iff at least one requested field was obtained from
the bus (each field's success characterized by its attempts); the
result is only ever `Ok` or `Fail` (no hard per-field error); every
requested field is written (a validated reading, or its safe default:
voltage 3700 mV, percent 50, charging false) and non-requested fields
are untouched. -/
theorem C3_data_safe_result (wantV wantP wantC : Bool)
    (vR pR cR : Nat → Option Nat) :
    ((axp2101_get_battery_data_safe true wantV wantP wantC vR pR cR).ret
        = EspErr.ok ↔
      ((wantV && (voltage_block vR).2) || (wantP && (percent_block pR).2) ||
        (wantC && (charging_block cR).2)) = true) ∧
    ((axp2101_get_battery_data_safe true wantV wantP wantC vR pR cR).ret
        = EspErr.ok ∨
      (axp2101_get_battery_data_safe true wantV wantP wantC vR pR cR).ret
        = EspErr.fail) ∧
    ((axp2101_get_battery_data_safe true wantV wantP wantC vR pR cR).voltage =
      if wantV then some (voltage_block vR).1 else none) ∧
    ((axp2101_get_battery_data_safe true wantV wantP wantC vR pR cR).percent =
      if wantP then some (percent_block pR).1 else none) ∧
    ((axp2101_get_battery_data_safe true wantV wantP wantC vR pR cR).charging =
      if wantC then some (charging_block cR).1 else none) ∧
    ((voltage_block vR).2 = true ↔
      ∃ j, j < 3 ∧ (attempt_step_voltage vR j).isSome = true) ∧
    ((percent_block pR).2 = true ↔ ∃ j, j < 3 ∧ (pR j).isSome = true) ∧
    ((charging_block cR).2 = true ↔ ∃ j, j < 3 ∧ (cR j).isSome = true) ∧
    ((voltage_block vR).2 = false → (voltage_block vR).1 = 3700) ∧
    ((percent_block pR).2 = false → (percent_block pR).1 = 50) ∧
    ((charging_block cR).2 = false → (charging_block cR).1 = false) := by
  refine ⟨?_, ?_, rfl, rfl, rfl, ?_, ?_, ?_,
    voltage_block_default vR, percent_block_default pR,
    charging_block_default cR⟩
  · rw [data_safe_ret]
    cases hs : (wantV && (voltage_block vR).2) || (wantP && (percent_block pR).2)
        || (wantC && (charging_block cR).2) <;> simp
  · rw [data_safe_ret]
    cases hs : (wantV && (voltage_block vR).2) || (wantP && (percent_block pR).2)
        || (wantC && (charging_block cR).2) <;> simp
  · rw [voltage_block_snd]
    exact retry_first_isSome_iff _ I2C_RETRY_COUNT
  · rw [percent_block_snd, retry_first_isSome_iff]
    exact exists_congr fun j => and_congr_right fun _ => by
      rw [attempt_step_percent_isSome]
  · rw [charging_block_snd, retry_first_isSome_iff]
    exact exists_congr fun j => and_congr_right fun _ => by
      rw [attempt_step_charging_isSome]

/-- Witness for C3: all fields requested, voltage and charging attempts
all fail on the bus, the percentage's underlying voltage read succeeds
on the second attempt — the call still returns `Ok`. -/
theorem C3_data_safe_result_witness :
    (axp2101_get_battery_data_safe true true true true (fun _ => none)
      (fun i => if i = 1 then some 3850 else none) (fun _ => none)).ret
      = EspErr.ok :=
  (C3_data_safe_result true true true (fun _ => none)
    (fun i => if i = 1 then some 3850 else none) (fun _ => none)).1.mpr
    (by decide)

/-! ## Sleep manager (sleep_manager.c)

The `CONFIG_SLEEP_MANAGER_*` compile-time feature flags are modelled as
a record of booleans; GPIO levels, the monotonic clock, display-lock
outcomes and PMU status-register reads are inputs of each modelled
call. -/

/-- Compile-time feature selection (`CONFIG_SLEEP_MANAGER_*` /
`sdkconfig`). -/
structure Config where
  prevent_sleep_on_usb : Bool
  prevent_screen_off_on_usb : Bool
  gpio_wakeup : Bool
  touch_wakeup : Bool
  touch_reset_timer : Bool
  backlight_control : Bool
  lvgl_timer_pause : Bool
  deriving DecidableEq, Repr

/-- Every modelled feature enabled — the configuration the spec's
scenarios assume. -/
def cfgAll : Config := ⟨true, true, true, true, true, true, true⟩

/-- `axp2101_is_vbus_present`: reads the PMU status register; VBUS is
present iff bit 5 is set (pmu_axp2101.c:186-187); `none` models a
failed transaction (or uninitialized device). -/
def axp2101_is_vbus_present (status_read : Option Nat) : Option Bool :=
  status_read.map (fun s => decide (s &&& 0x20 ≠ 0))

/-- `sleep_manager_is_usb_connected` (sleep_manager.c:822-838): when the
USB-inhibit feature is compiled in, reads VBUS and returns `false` on a
read error ("assume not connected on error"); without the feature it is
constantly `false`. -/
def sleep_manager_is_usb_connected (cfg : Config) (status_read : Option Nat) :
    Bool :=
  if cfg.prevent_sleep_on_usb then
    match axp2101_is_vbus_present status_read with
    | none => false
    | some b => b
  else false

/-- `sleep_manager_should_sleep` (sleep_manager.c:840-858), with the
current inactivity time and the configured timeout as inputs. -/
def sleep_manager_should_sleep (cfg : Config) (sleeping : Bool)
    (status_read : Option Nat) (inactive_ms timeout_ms : Nat) : Bool :=
  if sleeping then false
  else if cfg.prevent_sleep_on_usb &&
      sleep_manager_is_usb_connected cfg status_read then false
  else decide (timeout_ms ≤ inactive_ms)

/-- `sleep_manager_should_turn_off_backlight` (sleep_manager.c:877-896). -/
def sleep_manager_should_turn_off_backlight (cfg : Config)
    (backlight_off : Bool) (status_read : Option Nat)
    (inactive_ms timeout_ms : Nat) : Bool :=
  if backlight_off then false
  else if cfg.prevent_screen_off_on_usb &&
      sleep_manager_is_usb_connected cfg status_read then false
  else decide (timeout_ms ≤ inactive_ms)

/-- The deep-sleep gate of `sleep_check_task` (sleep_manager.c:342-370):
deep sleep is allowed unless USB is connected (when that inhibit is
compiled in) or the touch or button line is currently asserted (low). -/
def deep_sleep_allowed (cfg : Config) (status_read : Option Nat)
    (touch_level button_level : Nat) : Bool :=
  (!(cfg.prevent_sleep_on_usb &&
      sleep_manager_is_usb_connected cfg status_read)) &&
  (!(cfg.gpio_wakeup && cfg.touch_wakeup && decide (touch_level = 0))) &&
  (!(cfg.gpio_wakeup && decide (button_level = 0)))

/-- Mutable module state of sleep_manager.c (the fields the modelled
paths touch); `saved_timers` holds the handles recorded by
`pause_lvgl_timers`. -/
structure SMState where
  is_sleeping : Bool
  is_backlight_off : Bool
  last_activity_time : Nat
  last_user_activity_time : Nat
  saved_timers : List Nat
  deriving DecidableEq, Repr

/-- `sleep_manager_reset_timer` (sleep_manager.c:860-868): sets both
activity timestamps to now — but only when
`CONFIG_SLEEP_MANAGER_TOUCH_RESET_TIMER` is compiled in. -/
def sleep_manager_reset_timer (cfg : Config) (now : Nat) (s : SMState) :
    SMState :=
  if cfg.touch_reset_timer then
    { s with last_activity_time := now, last_user_activity_time := now }
  else s

/-- The `for (attempt = 0; attempt <= retries; attempt++)` loop of
`sleep_manager_lock_display_with_retry`, over the outcomes of the
individual `bsp_display_lock` calls; returns whether the lock was
acquired and how many `bsp_display_lock` calls were made. -/
def lock_attempt_loop (lock : Nat → Bool) : Nat → Nat → Bool × Nat
  | i, 0 => (false, i)
  | i, fuel + 1 =>
    if lock i then (true, i + 1) else lock_attempt_loop lock (i + 1) fuel

/-- `sleep_manager_lock_display_with_retry` (sleep_manager.c:91-109):
the loop body runs for `attempt = 0 .. retries` inclusive, i.e.
`retries + 1` lock attempts. -/
def sleep_manager_lock_display_with_retry (lock : Nat → Bool)
    (retries : Nat) : Bool × Nat :=
  lock_attempt_loop lock 0 (retries + 1)

/-- `display_wake` (sleep_manager.c:188-207): turns the backlight on
only when backlight control is compiled in and it was off. -/
def display_wake (cfg : Config) (s : SMState) : SMState :=
  if cfg.backlight_control && s.is_backlight_off then
    { s with is_backlight_off := false }
  else s

/-! ### LVGL timer registry (pause_lvgl_timers / resume_lvgl_timers)

The LVGL timer list is a list of (opaque handle, paused flag) pairs in
enumeration order. -/

def MAX_TIMERS : Nat := 8

/-- The walk of `pause_lvgl_timers` (sleep_manager.c:212-248): pause and
record timers while `saved_timer_count < MAX_TIMERS`, then stop, leaving
the remaining timers untouched.  Returns the updated timer list and the
recorded handles in capture order. -/
def pause_sys : List (Nat × Bool) → Nat → List (Nat × Bool) × List Nat
  | [], _ => ([], [])
  | (t, p) :: rest, count =>
    if count < MAX_TIMERS then
      ((t, true) :: (pause_sys rest (count + 1)).1,
        t :: (pause_sys rest (count + 1)).2)
    else ((t, p) :: rest, [])

/-- `pause_lvgl_timers` starts from a cleared saved set
(`saved_timer_count = 0`). -/
def pause_lvgl_timers (sys : List (Nat × Bool)) :
    List (Nat × Bool) × List Nat :=
  pause_sys sys 0

/-- `resume_lvgl_timers` (sleep_manager.c:253-276): resume every
recorded handle (clearing its paused flag). -/
def resume_lvgl_timers (saved : List Nat) (sys : List (Nat × Bool)) :
    List (Nat × Bool) :=
  saved.foldl
    (fun acc t => acc.map fun u => if u.1 = t then (u.1, false) else u) sys

/-! ### sleep_manager_sleep entry (sleep_manager.c:575-640) -/

/-- Environment of one `sleep_manager_sleep` call: the monotonic clock,
the PMU status read backing the USB re-check, the two GPIO levels at
decision time, the display-lock attempt outcomes, and whether an LVGL
display exists. -/
structure SleepEnv where
  now : Nat
  vbus_status_read : Option Nat
  touch_level : Nat
  button_level : Nat
  lock : Nat → Bool
  has_display : Bool

inductive SleepPhase1 where
  /-- the call returned before reaching the sleep sequence -/
  | abort (s : SMState) (e : EspErr)
  /-- lock held and display present: control continues into the sleep
  sequence (timer pause, light sleep, wake) -/
  | proceed (s : SMState)
  deriving DecidableEq, Repr

/-- `sleep_manager_sleep` up to the point where the LVGL timers are
paused: the already-sleeping check, the USB / touch / button inhibitor
re-checks, the bounded display-lock acquisition and the display
presence check.  (The best-effort uptime save between the GPIO checks
and the lock touches no modelled state.) -/
def sleep_manager_sleep_phase1 (cfg : Config) (e : SleepEnv) (s : SMState) :
    SleepPhase1 :=
  if s.is_sleeping then .abort s .ok
  else if cfg.prevent_sleep_on_usb &&
      sleep_manager_is_usb_connected cfg e.vbus_status_read then
    .abort s .ok
  else if cfg.gpio_wakeup && cfg.touch_wakeup && decide (e.touch_level = 0) then
    .abort (sleep_manager_reset_timer cfg e.now s) .ok
  else if cfg.gpio_wakeup && decide (e.button_level = 0) then
    .abort (sleep_manager_reset_timer cfg e.now s) .ok
  else if !(sleep_manager_lock_display_with_retry e.lock 5).1 then
    .abort { s with is_sleeping := false } .timeout
  else if !e.has_display then
    .abort { s with is_sleeping := false } .invalidState
  else .proceed s

/-! ### sleep_manager_wake (sleep_manager.c:760-820) -/

structure WakeEnv where
  now : Nat
  lock : Nat → Bool
  has_display : Bool

/-- The `resume_lvgl_timers` effect on the module state: the saved set
is emptied (`saved_timer_count = 0`). -/
def resume_saved_timers (cfg : Config) (s : SMState) : SMState :=
  if cfg.lvgl_timer_pause then { s with saved_timers := [] } else s

/-- `sleep_manager_wake`: no-op when not sleeping; otherwise wake the
display, re-acquire the display lock with bounded retry (deferring the
wake on failure), resume the saved timers, reset the activity timer and
mark the state awake. -/
def sleep_manager_wake (cfg : Config) (e : WakeEnv) (s : SMState) :
    SMState × EspErr :=
  if !s.is_sleeping then (s, .ok)
  else if !(sleep_manager_lock_display_with_retry e.lock 5).1 then
    (display_wake cfg s, .timeout)
  else if !e.has_display then (display_wake cfg s, .invalidState)
  else
    ({ resume_saved_timers cfg (display_wake cfg s) with
        last_activity_time := e.now, is_sleeping := false }, .ok)

/-! ## Theorems about the sleep manager -/

/-- **C4** — with the USB-inhibit-on-sleep feature configured and the
VBUS-present bit set in the status read, `sleep_manager_should_sleep`
returns `false` for every value of the inactivity counter; it likewise
returns `false` for every inactivity value when already sleeping. -/
theorem C4_usb_inhibits_should_sleep (cfg : Config)
    (status inactive timeout : Nat)
    (hcfg : cfg.prevent_sleep_on_usb = true)
    (hvbus : status &&& 0x20 ≠ 0) :
    sleep_manager_should_sleep cfg false (some status) inactive timeout
      = false ∧
    (∀ (sr : Option Nat) (inact : Nat),
      sleep_manager_should_sleep cfg true sr inact timeout = false) := by
  constructor
  · unfold sleep_manager_should_sleep sleep_manager_is_usb_connected
      axp2101_is_vbus_present
    simp [hcfg, hvbus]
  · intro sr inact
    rfl

/-- Witness for C4: VBUS bit set and an enormous inactivity time. -/
theorem C4_usb_inhibits_should_sleep_witness :
    sleep_manager_should_sleep cfgAll false (some 0x20) 1000000000 30000
      = false :=
  (C4_usb_inhibits_should_sleep cfgAll 0x20 1000000000 30000 rfl
    (by decide)).1

/-- **C10** (implicit) — when the VBUS status read fails,
`sleep_manager_is_usb_connected` returns `false` ("assume not connected
on error"), so under a persistent bus fault the USB inhibit fails open:
the dim check, the light-sleep check and the deep-sleep gate all behave
as if no cable were attached, leaving the device eligible to dim and to
sleep once the inactivity timeout is reached. -/
theorem C10_usb_check_fails_open :
    sleep_manager_is_usb_connected cfgAll none = false ∧
    (∀ cfg : Config, sleep_manager_is_usb_connected cfg none = false) ∧
    (∀ inactive timeout : Nat,
      sleep_manager_should_sleep cfgAll false none inactive timeout
        = decide (timeout ≤ inactive)) ∧
    (∀ inactive timeout : Nat,
      sleep_manager_should_turn_off_backlight cfgAll false none inactive
        timeout = decide (timeout ≤ inactive)) ∧
    (∀ touch_level button_level : Nat,
      deep_sleep_allowed cfgAll none touch_level button_level
        = ((!decide (touch_level = 0)) && (!decide (button_level = 0)))) := by
  refine ⟨rfl, ?_, fun inactive timeout => rfl, fun inactive timeout => rfl,
    fun touch_level button_level => rfl⟩
  intro cfg
  unfold sleep_manager_is_usb_connected axp2101_is_vbus_present
  cases hc : cfg.prevent_sleep_on_usb <;> simp

/-- Closed-form characterization of the `pause_lvgl_timers` walk for an
arbitrary starting count `≤ MAX_TIMERS`. -/
theorem pause_sys_spec (sys : List (Nat × Bool)) (count : Nat)
    (h : count ≤ 8) :
    pause_sys sys count =
      ((sys.take (8 - count)).map (fun tp => (tp.1, true))
          ++ sys.drop (8 - count),
        (sys.take (8 - count)).map Prod.fst) := by
  induction sys generalizing count with
  | nil => simp [pause_sys]
  | cons tp rest ih =>
    obtain ⟨t, p⟩ := tp
    by_cases hc : count < 8
    · have h8 : 8 - count = (8 - (count + 1)) + 1 := by omega
      unfold pause_sys
      rw [if_pos (show count < MAX_TIMERS from hc)]
      rw [ih (count + 1) (by omega), h8]
      simp [List.take_succ_cons, List.drop_succ_cons]
    · have hc8 : count = 8 := by omega
      subst hc8
      unfold pause_sys
      rw [if_neg (show ¬ (8 < MAX_TIMERS) by unfold MAX_TIMERS; omega)]
      simp

/-- **C9** — for any LVGL timer list, `pause_lvgl_timers` pauses and
records exactly the first `min N 8` timers (so the saved count never
exceeds the capacity 8 and indexing stays in bounds), leaves every
timer past the 8th untouched, and `resume_lvgl_timers` with an empty
saved set is a no-op. -/
theorem C9_pause_bounded_resume_noop (sys : List (Nat × Bool)) :
    (pause_lvgl_timers sys).2 = (sys.take 8).map Prod.fst ∧
    (pause_lvgl_timers sys).2.length = min sys.length 8 ∧
    (pause_lvgl_timers sys).2.length ≤ 8 ∧
    (pause_lvgl_timers sys).1 =
      (sys.take 8).map (fun tp => (tp.1, true)) ++ sys.drop 8 ∧
    (∀ sys2, resume_lvgl_timers [] sys2 = sys2) := by
  have h := pause_sys_spec sys 0 (by omega)
  unfold pause_lvgl_timers
  rw [h]
  refine ⟨rfl, ?_, ?_, rfl, fun sys2 => rfl⟩
  · rw [List.length_map, List.length_take]
    omega
  · rw [List.length_map, List.length_take]
    omega

/-- Counterexample to C5 as stated: with every feature enabled and VBUS
present (status bit 5 set), the USB-inhibitor abort in
`sleep_manager_sleep` returns success with the state completely
untouched — the activity timer keeps its stale value 0 instead of being
reset to the current time 1000 (only the touch and button aborts call
`sleep_manager_reset_timer`; the USB abort at sleep_manager.c:584-588
does not). -/
theorem C5_usb_abort_no_reset :
    sleep_manager_sleep_phase1 cfgAll
      { now := 1000, vbus_status_read := some 0x20, touch_level := 1,
        button_level := 1, lock := fun _ => true, has_display := true }
      { is_sleeping := false, is_backlight_off := false,
        last_activity_time := 0, last_user_activity_time := 0,
        saved_timers := [] } =
      .abort { is_sleeping := false, is_backlight_off := false,
               last_activity_time := 0, last_user_activity_time := 0,
               saved_timers := [] } .ok ∧
    (sleep_manager_reset_timer cfgAll 1000
      { is_sleeping := false, is_backlight_off := false,
        last_activity_time := 0, last_user_activity_time := 0,
        saved_timers := [] }).last_activity_time = 1000 ∧
    (0 : Nat) ≠ 1000 := by
  refine ⟨rfl, rfl, by decide⟩

/-- **C5** (amended) — every inhibitor abort of `sleep_manager_sleep`
(USB present, touch line asserted, button asserted) is a no-op
returning success: the power state stays awake and neither the display
nor the saved-timer set changes.  The touch and button aborts
additionally reset the activity timer (via
`sleep_manager_reset_timer`, which with the touch-reset-timer feature
sets both timestamps to now and changes nothing else); the USB abort
does not reset the timer — immediate re-fire is prevented instead by
the USB check inside `sleep_manager_should_sleep`. -/
theorem C5_inhibitor_abort_noop (cfg : Config) (e : SleepEnv) (s : SMState)
    (hns : s.is_sleeping = false) :
    ((cfg.prevent_sleep_on_usb &&
        sleep_manager_is_usb_connected cfg e.vbus_status_read) = true →
      sleep_manager_sleep_phase1 cfg e s = .abort s .ok) ∧
    ((cfg.prevent_sleep_on_usb &&
        sleep_manager_is_usb_connected cfg e.vbus_status_read) = false →
      (cfg.gpio_wakeup && cfg.touch_wakeup && decide (e.touch_level = 0))
        = true →
      sleep_manager_sleep_phase1 cfg e s =
        .abort (sleep_manager_reset_timer cfg e.now s) .ok) ∧
    ((cfg.prevent_sleep_on_usb &&
        sleep_manager_is_usb_connected cfg e.vbus_status_read) = false →
      (cfg.gpio_wakeup && cfg.touch_wakeup && decide (e.touch_level = 0))
        = false →
      (cfg.gpio_wakeup && decide (e.button_level = 0)) = true →
      sleep_manager_sleep_phase1 cfg e s =
        .abort (sleep_manager_reset_timer cfg e.now s) .ok) ∧
    (∀ (now : Nat) (s2 : SMState),
      sleep_manager_reset_timer cfgAll now s2 =
        { s2 with last_activity_time := now,
                  last_user_activity_time := now }) ∧
    (∀ (sr : Option Nat) (inact tmo : Nat),
      sleep_manager_is_usb_connected cfg sr = true →
      sleep_manager_should_sleep cfg false sr inact tmo = false) := by
  refine ⟨?_, ?_, ?_, fun now s2 => rfl, ?_⟩
  · intro h1
    simp [sleep_manager_sleep_phase1, hns, h1]
  · intro h1 h2
    simp [sleep_manager_sleep_phase1, hns, h1, h2]
  · intro h1 h2 h3
    simp [sleep_manager_sleep_phase1, hns, h1, h2, h3]
  · intro sr inact tmo husb
    simp [sleep_manager_should_sleep, sleep_manager_is_usb_connected] at husb ⊢
    simp [husb.1, husb.2]

/-- Witness for the amended C5: a button abort at time 500 resets both
timestamps and changes nothing else. -/
theorem C5_inhibitor_abort_noop_witness :
    sleep_manager_sleep_phase1 cfgAll
      { now := 500, vbus_status_read := none, touch_level := 1,
        button_level := 0, lock := fun _ => true, has_display := true }
      { is_sleeping := false, is_backlight_off := false,
        last_activity_time := 7, last_user_activity_time := 7,
        saved_timers := [] } =
      .abort (sleep_manager_reset_timer cfgAll 500
        { is_sleeping := false, is_backlight_off := false,
          last_activity_time := 7, last_user_activity_time := 7,
          saved_timers := [] }) .ok :=
  (C5_inhibitor_abort_noop cfgAll
    { now := 500, vbus_status_read := none, touch_level := 1,
      button_level := 0, lock := fun _ => true, has_display := true }
    { is_sleeping := false, is_backlight_off := false,
      last_activity_time := 7, last_user_activity_time := 7,
      saved_timers := [] } rfl).2.2.1 (by decide) (by decide) (by decide)

theorem lock_attempt_loop_all_fail (lock : Nat → Bool) (start fuel : Nat)
    (h : ∀ i, i < fuel → lock (start + i) = false) :
    lock_attempt_loop lock start fuel = (false, start + fuel) := by
  induction fuel generalizing start with
  | zero => rfl
  | succ n ih =>
    have h0 : lock start = false := by simpa using h 0 (by omega)
    unfold lock_attempt_loop
    rw [h0, if_neg Bool.false_ne_true]
    rw [ih (start + 1) (fun i hi => by
      have := h (i + 1) (by omega)
      rwa [show start + (i + 1) = start + 1 + i by omega] at this)]
    rw [show start + 1 + n = start + (n + 1) by omega]

theorem lock_attempt_loop_count_le (lock : Nat → Bool) (start fuel : Nat) :
    (lock_attempt_loop lock start fuel).2 ≤ start + fuel := by
  induction fuel generalizing start with
  | zero => simp [lock_attempt_loop]
  | succ n ih =>
    unfold lock_attempt_loop
    cases hl : lock start with
    | true =>
      rw [if_pos rfl]
      show start + 1 ≤ start + (n + 1)
      omega
    | false =>
      rw [if_neg Bool.false_ne_true]
      have := ih (start + 1)
      omega

/-- Counterexample to C6 as stated: the loop
`for (attempt = 0; attempt <= retries; attempt++)` with `retries = 5`
makes 6 `bsp_display_lock` calls, not 5 — with every attempt failing
the call count is 6, and a lock that only becomes available on the 6th
attempt (index 5) is still acquired. -/
theorem C6_six_attempts_not_five :
    (sleep_manager_lock_display_with_retry (fun _ => false) 5).2 = 6 ∧
    (sleep_manager_lock_display_with_retry (fun _ => false) 5).2 ≠ 5 ∧
    (sleep_manager_lock_display_with_retry (fun i => decide (i = 5)) 5).1
      = true := by
  refine ⟨rfl, by decide, rfl⟩

/-- **C6** (amended) — display-lock acquisition during sleep entry is
bounded: exactly 6 attempts (the initial try plus 5 retries, 50 ms
apart), never more; and when no attempt succeeds,
`sleep_manager_sleep` aborts without entering sleep, leaves the power
state not sleeping, and returns a timeout error rather than
proceeding with the GUI toolkit unlocked. -/
theorem C6_lock_retry_bounded (cfg : Config) (e : SleepEnv) (s : SMState)
    (hns : s.is_sleeping = false)
    (husb : (cfg.prevent_sleep_on_usb &&
      sleep_manager_is_usb_connected cfg e.vbus_status_read) = false)
    (htouch : (cfg.gpio_wakeup && cfg.touch_wakeup &&
      decide (e.touch_level = 0)) = false)
    (hbutton : (cfg.gpio_wakeup && decide (e.button_level = 0)) = false)
    (hlock : ∀ i, i < 6 → e.lock i = false) :
    sleep_manager_lock_display_with_retry e.lock 5 = (false, 6) ∧
    sleep_manager_sleep_phase1 cfg e s =
      .abort { s with is_sleeping := false } .timeout ∧
    (∀ lock2 : Nat → Bool,
      (sleep_manager_lock_display_with_retry lock2 5).2 ≤ 6) := by
  have hfail : sleep_manager_lock_display_with_retry e.lock 5 = (false, 6) := by
    unfold sleep_manager_lock_display_with_retry
    have := lock_attempt_loop_all_fail e.lock 0 6
      (fun i hi => by simpa using hlock i hi)
    simpa using this
  refine ⟨hfail, ?_, fun lock2 => ?_⟩
  · simp [sleep_manager_sleep_phase1, hns, husb, htouch, hbutton, hfail]
  · have := lock_attempt_loop_count_le lock2 0 6
    simpa [sleep_manager_lock_display_with_retry] using this

/-- Witness for the amended C6: a lock that always fails makes sleep
abort with a timeout, leaving the state awake. -/
theorem C6_lock_retry_bounded_witness :
    sleep_manager_sleep_phase1 cfgAll
      { now := 0, vbus_status_read := none, touch_level := 1,
        button_level := 1, lock := fun _ => false, has_display := true }
      { is_sleeping := false, is_backlight_off := false,
        last_activity_time := 0, last_user_activity_time := 0,
        saved_timers := [] } =
      .abort { is_sleeping := false, is_backlight_off := false,
               last_activity_time := 0, last_user_activity_time := 0,
               saved_timers := [] } .timeout :=
  (C6_lock_retry_bounded cfgAll
    { now := 0, vbus_status_read := none, touch_level := 1,
      button_level := 1, lock := fun _ => false, has_display := true }
    { is_sleeping := false, is_backlight_off := false,
      last_activity_time := 0, last_user_activity_time := 0,
      saved_timers := [] } rfl (by decide) (by decide) (by decide)
    (fun i _ => rfl)).2.1

/-- **C7** — `sleep_manager_wake` is idempotent: calling it while
already awake is a no-op returning success; after one (successful) wake
the state is awake, so a second call changes nothing and also returns
success — the observable state after two calls equals the state after
one (display on, saved-timer set empty with timers resumed, activity
timer reset, state awake). -/
theorem C7_wake_idempotent (cfg : Config) (e1 e2 : WakeEnv) (s : SMState)
    (hlock : (sleep_manager_lock_display_with_retry e1.lock 5).1 = true)
    (hdisp : e1.has_display = true) :
    (s.is_sleeping = false → sleep_manager_wake cfg e1 s = (s, .ok)) ∧
    (sleep_manager_wake cfg e1 s).2 = EspErr.ok ∧
    (sleep_manager_wake cfg e1 s).1.is_sleeping = false ∧
    sleep_manager_wake cfg e2 (sleep_manager_wake cfg e1 s).1 =
      ((sleep_manager_wake cfg e1 s).1, EspErr.ok) ∧
    (s.is_sleeping = true → cfg.backlight_control = true →
      cfg.lvgl_timer_pause = true →
      (sleep_manager_wake cfg e1 s).1.is_backlight_off = false ∧
      (sleep_manager_wake cfg e1 s).1.saved_timers = [] ∧
      (sleep_manager_wake cfg e1 s).1.last_activity_time = e1.now) := by
  cases hs : s.is_sleeping with
  | false =>
    have hw : sleep_manager_wake cfg e1 s = (s, .ok) := by
      unfold sleep_manager_wake
      rw [hs]
      rfl
    refine ⟨fun _ => hw, by rw [hw], by rw [hw]; exact hs, ?_, ?_⟩
    · rw [hw]
      show sleep_manager_wake cfg e2 s = (s, EspErr.ok)
      unfold sleep_manager_wake
      rw [hs]
      rfl
    · intro h
      exact absurd h (by decide)
  | true =>
    have hw : sleep_manager_wake cfg e1 s =
        ({ resume_saved_timers cfg (display_wake cfg s) with
            last_activity_time := e1.now, is_sleeping := false }, .ok) := by
      unfold sleep_manager_wake
      rw [hs, hlock, hdisp]
      rfl
    refine ⟨fun h => absurd h (by decide), by rw [hw], by rw [hw], ?_, ?_⟩
    · rw [hw]
      rfl
    · intro _ hb hl2
      rw [hw]
      cases hbo : s.is_backlight_off with
      | true =>
        refine ⟨?_, ?_, rfl⟩ <;>
          simp [display_wake, resume_saved_timers, hb, hl2, hbo]
      | false =>
        refine ⟨?_, ?_, rfl⟩ <;>
          simp [display_wake, resume_saved_timers, hb, hl2, hbo]

/-- Witness for C7: a double wake from a sleeping state with a healthy
lock and display equals a single wake, with success. -/
theorem C7_wake_idempotent_witness :
    sleep_manager_wake cfgAll ⟨777, fun _ => true, true⟩
      (sleep_manager_wake cfgAll ⟨777, fun _ => true, true⟩
        ⟨true, true, 3, 3, [5, 9]⟩).1 =
    ((sleep_manager_wake cfgAll ⟨777, fun _ => true, true⟩
        ⟨true, true, 3, 3, [5, 9]⟩).1, EspErr.ok) :=
  (C7_wake_idempotent cfgAll ⟨777, fun _ => true, true⟩
    ⟨777, fun _ => true, true⟩ ⟨true, true, 3, 3, [5, 9]⟩
    rfl rfl).2.2.2.1
